import Mathlib

/-!
Verification development for the gasyncio repository (a minimalistic asyncio
event loop driven by the GLib main event loop).

The development shallowly embeds the two source files
`src/gasyncio/gevents.py` and `src/gasyncio/threadselector.py`:

* Python `dict`s keyed by file descriptors become association lists
  `List (Nat × α)` with `alookup` / `aset` / `adel` mirroring indexing,
  assignment and deletion;
* GLib is modelled by `GLibState`: `GLib.timeout_add` appends a fresh source
  id with its delay and callback kind to the list of scheduled sources and
  bumps the id counter; `GLib.io_add_watch` likewise hands out fresh ids;
* fallible Python methods (which raise) become functions returning
  `PyResult`, which carries the resulting state on both the success and the
  exception path, so that atomicity statements can compare states;
* `GLib.IOChannel` wrapper objects are identified by the counter value at
  their creation (`next_channel`), so "same wrapper object" is expressible.

Floats (`loop.time()`, timer deadlines) are embedded as rationals.
-/

set_option autoImplicit false

universe u v

/-! ## Association-list helpers (Python dict on fd keys) -/

def alookup {α : Type u} (k : Nat) : List (Nat × α) → Option α
  | [] => none
  | p :: l => if p.1 = k then some p.2 else alookup k l

def aset {α : Type u} (k : Nat) (v : α) : List (Nat × α) → List (Nat × α)
  | [] => [(k, v)]
  | p :: l => if p.1 = k then (k, v) :: l else p :: aset k v l

def adel {α : Type u} (k : Nat) (l : List (Nat × α)) : List (Nat × α) :=
  l.filter (fun p => decide (¬ p.1 = k))

theorem alookup_aset_self {α : Type u} (k : Nat) (v : α) (l : List (Nat × α)) :
    alookup k (aset k v l) = some v := by
  induction l with
  | nil => simp [aset, alookup]
  | cons p l ih =>
    by_cases h : p.1 = k
    · simp [aset, h, alookup]
    · simp [aset, h, alookup, ih]

theorem alookup_adel_self {α : Type u} (k : Nat) (l : List (Nat × α)) :
    alookup k (adel k l) = none := by
  induction l with
  | nil => simp [adel, alookup]
  | cons p l ih =>
    by_cases h : p.1 = k
    · simpa [adel, h] using ih
    · simpa [adel, h, alookup] using ih

/-! ## Python exceptions and results -/

inductive PyErr : Type
  | keyError
  | valueError
  | runtimeError
  | nameError
  | osError (eno : Int)
deriving DecidableEq, Repr

/-- Result of a Python method call: either a return value or a raised
exception, in both cases together with the object state the call left
behind (exceptions in Python do not roll state back). -/
inductive PyResult (α : Type u) (σ : Type v) : Type (max u v)
  | ok (v : α) (s : σ)
  | err (e : PyErr) (s : σ)
deriving DecidableEq, Repr

def PyResult.state {α : Type u} {σ : Type v} : PyResult α σ → σ
  | .ok _ s => s
  | .err _ s => s

def PyResult.isOk {α : Type u} {σ : Type v} : PyResult α σ → Bool
  | .ok _ _ => true
  | .err _ _ => false

def PyResult.val? {α : Type u} {σ : Type v} : PyResult α σ → Option α
  | .ok v _ => some v
  | .err _ _ => none

/-! ## selectors constants (cpython `selectors` module) -/

def EVENT_READ : Nat := 1
def EVENT_WRITE : Nat := 2

/-! ## GLib model

`GLib.timeout_add` / `GLib.io_add_watch` return monotonically increasing
source ids; a scheduled timeout is recorded as `(source id, delay in ms,
callback kind)`.  The embedded operations never fire callbacks themselves
(the host loop does that), so within one embedded call sequence the list of
scheduled-and-not-yet-fired sources only grows via `timeout_add`. -/

inductive GSrcKind : Type
  | giterate
  | timer
deriving DecidableEq, Repr

structure GLibState : Type where
  next_source : Nat
  timeouts : List (Nat × ℚ × GSrcKind)
deriving DecidableEq, Repr

def timeout_add (g : GLibState) (delay : ℚ) (kind : GSrcKind) : Nat × GLibState :=
  (g.next_source,
   { next_source := g.next_source + 1,
     timeouts := g.timeouts ++ [(g.next_source, delay, kind)] })

/-- Number of scheduled drain (`_giterate`) sources. -/
def drainCount (g : GLibState) : Nat :=
  (g.timeouts.filter (fun t => decide (t.2.2 = GSrcKind.giterate))).length

/-! ## Event-loop model (`GAsyncIOEventLoop` in gevents.py)

The selector bound to the loop matters to `_giterate` only through the
class attribute `_schedule_periodic_giterate`, so it is embedded as an
enumeration of the three selector classes the source can install. -/

inductive SelectorKind : Type
  | gasyncioSelector
  | noWaitSelect
  | threadSelector
deriving DecidableEq, Repr

/-- Embeds `getattr(self._selector, '_schedule_periodic_giterate', False)`: the
class attribute `_schedule_periodic_giterate = True` is declared only on
`NoWaitSelectSelector` (gevents.py line 107); neither `GAsyncIOSelector`
nor `ThreadSelector` defines it, so `getattr` falls back to `False`. -/
def schedulePeriodicGiterate : SelectorKind → Bool
  | .noWaitSelect => true
  | .gasyncioSelector => false
  | .threadSelector => false

structure GAsyncIOEventLoop : Type where
  /-- Attribute `self._is_slave`. -/
  is_slave : Bool
  /-- Attribute `self._giteration`: source id of the pending drain callback, if any. -/
  giteration : Option Nat
  /-- whether `close()` has run (`self._check_closed` raises when true). -/
  closed : Bool
  /-- whether `asyncio.events._get_running_loop()` is non-`None`. -/
  running_loop_set : Bool
  /-- length of the inherited `self._ready` callback queue. -/
  ready : Nat
  selector : SelectorKind
  glib : GLibState
deriving DecidableEq, Repr

/-- Embedding of `GAsyncIOEventLoop.is_running` (gevents.py lines 128-129):
`return self._is_slave`. -/
def GAsyncIOEventLoop.is_running (s : GAsyncIOEventLoop) : Bool :=
  s.is_slave

/-- Embedding of `GAsyncIOEventLoop.start_slave_loop` (gevents.py lines 131-145).
`self._check_closed()` raises `RuntimeError` if the loop is closed;
`self._check_running()` (inherited from `asyncio.base_events`) raises
`RuntimeError` if `self.is_running()` or if another loop is the current
running loop.  Coroutine-origin tracking and asyncgen-hook bookkeeping
have no observable effect on the state this development tracks and are
elided.  Finally the method marks the running loop and sets
`self._is_slave = True`. -/
def GAsyncIOEventLoop.start_slave_loop (s : GAsyncIOEventLoop) :
    PyResult Unit GAsyncIOEventLoop :=
  if s.closed then .err .runtimeError s
  else if s.is_running then .err .runtimeError s
  else if s.running_loop_set then .err .runtimeError s
  else .ok () { s with running_loop_set := true, is_slave := true }

/-- Embedding of `GAsyncIOEventLoop._schedule_giteration` (gevents.py lines 211-214).
The body runs under `self._lock`; the embedding is the atomic
check-then-schedule the mutex guarantees:
if `self._giteration is None`, schedule a zero-delay drain source and
store its id, otherwise do nothing. -/
def GAsyncIOEventLoop._schedule_giteration (s : GAsyncIOEventLoop) : GAsyncIOEventLoop :=
  match s.giteration with
  | some _ => s
  | none =>
    let (src, g) := timeout_add s.glib 0 GSrcKind.giterate
    { s with giteration := some src, glib := g }

/-- Embedding of `GAsyncIOEventLoop._giterate` (gevents.py lines 216-225), embedded from
the point after the initial `self._run_once()` call (`_run_once` is
inherited from `asyncio.base_events.BaseEventLoop`, outside this
repository); `s` is the loop state as `_run_once` left it.  Returns the
GLib source-continuation Boolean (`True` = keep this source scheduled)
together with the updated state.  When the ready queue is empty, the
branch under `self._lock` either re-arms a 10 ms drain source (when the
selector's `_schedule_periodic_giterate` attribute is true) or clears
`self._giteration`. -/
def GAsyncIOEventLoop._giterate_post (s : GAsyncIOEventLoop) : Bool × GAsyncIOEventLoop :=
  if s.ready ≠ 0 then (true, s)
  else if schedulePeriodicGiterate s.selector then
    let (src, g) := timeout_add s.glib 10 GSrcKind.giterate
    (false, { s with giteration := some src, glib := g })
  else
    (false, { s with giteration := none })

/-- Delay computation in `GAsyncIOEventLoop.call_at` (gevents.py lines
185-187): `delay = (when - self.time()) * 1000; if delay < 0: delay = 0`. -/
def call_at_delay (when now : ℚ) : ℚ :=
  let delay := (when - now) * 1000
  if delay < 0 then 0 else delay

/-- Embedding of `GAsyncIOEventLoop.call_at` (gevents.py lines 177-189), restricted to
the state this development tracks: after `self._check_closed()`, a timer
handle is created (debug checks and traceback trimming elided, they do not
touch tracked state), the clamped delay is computed, and
`GLib.timeout_add(delay, self._timeout_cb, timer)` schedules the host
timer source whose id is stored in `timer._scheduled` and returned here.
`now` stands for `self.time()`. -/
def GAsyncIOEventLoop.call_at (s : GAsyncIOEventLoop) (now when : ℚ) :
    PyResult Nat GAsyncIOEventLoop :=
  if s.closed then .err .runtimeError s
  else
    let delay := call_at_delay when now
    let (src, g) := timeout_add s.glib delay GSrcKind.timer
    .ok src { s with glib := g }

/-! ## GAsyncIOSelector model (gevents.py lines 38-104)

`GAsyncIOSelector` subclasses `selectors._BaseSelectorImpl` (cpython): the
base class keeps `self._fd_to_key`, validates event masks and raises
`KeyError` on duplicate registration / unknown unregistration.  File
objects are embedded as an object identity paired with the descriptor
`_fileobj_lookup` resolves them to (two distinct objects may share a
descriptor). -/

structure FileObj : Type where
  oid : Nat
  fd : Nat
deriving DecidableEq, Repr

structure SelectorKey : Type where
  fileobj : FileObj
  fd : Nat
  events : Nat
  /-- opaque `data` slot (for the event loop: the `(handle_in, handle_out)`
  pair), embedded as an identifier. -/
  data : Nat
deriving DecidableEq, Repr

/-- The `GLib.IOCondition` flag values. -/
def G_IO_IN : Nat := 1
def G_IO_OUT : Nat := 4
def G_IO_HUP : Nat := 16

/-- Embedding of `GAsyncIOSelector._events_to_io_condition` (gevents.py lines 46-50). -/
def events_to_io_condition (events : Nat) : Nat :=
  (if events &&& EVENT_READ ≠ 0 then G_IO_IN else 0) |||
  (if events &&& EVENT_WRITE ≠ 0 then G_IO_OUT else 0)

/-- Embedding of `GAsyncIOSelector._io_condition_to_events` (gevents.py lines 52-56). -/
def io_condition_to_events (condition : Nat) : Nat :=
  (if condition &&& G_IO_IN ≠ 0 then EVENT_READ else 0) |||
  (if condition &&& G_IO_OUT ≠ 0 then EVENT_WRITE else 0)

structure GAsyncIOSelector : Type where
  /-- Attribute `self._fd_to_key` of the `selectors._BaseSelectorImpl` base class. -/
  fd_to_key : List (Nat × SelectorKey)
  /-- Attribute `self._sources`: fd ↦ GLib watch-source id. -/
  sources : List (Nat × Nat)
  /-- Attribute `self._io_channels`: fd ↦ channel-wrapper identity. -/
  io_channels : List (Nat × Nat)
  /-- Attribute `self._fileobj_preserve` (a Python set of file objects). -/
  fileobj_preserve : List FileObj
  /-- Attribute `self._hups` (a Python set of selector keys). -/
  hups : List SelectorKey
  /-- GLib source-id counter for `GLib.io_add_watch`. -/
  next_source : Nat
  /-- identity counter for `GLib.IOChannel` wrapper objects: a fresh wrapper
  gets the current counter value, so the counter doubles as the
  "wrapper created" count. -/
  next_channel : Nat
deriving DecidableEq, Repr

/-- Embedding of `selectors._BaseSelectorImpl.register` (cpython): raises `ValueError`
when `(not events) or (events & ~(EVENT_READ | EVENT_WRITE))` — i.e. when
the mask is zero or has a bit outside read|write — builds
`SelectorKey(fileobj, self._fileobj_lookup(fileobj), events, data)`,
raises `KeyError` if `key.fd` is already in `self._fd_to_key`, and stores
the key. -/
def base_register (s : GAsyncIOSelector) (fo : FileObj) (events data : Nat) :
    PyResult SelectorKey GAsyncIOSelector :=
  if events = 0 ∨ ¬ events &&& (EVENT_READ ||| EVENT_WRITE) = events then
    .err .valueError s
  else if (alookup fo.fd s.fd_to_key).isSome then .err .keyError s
  else
    let key : SelectorKey := ⟨fo, fo.fd, events, data⟩
    .ok key { s with fd_to_key := aset fo.fd key s.fd_to_key }

/-- Embedding of `selectors._BaseSelectorImpl.unregister` (cpython):
`key = self._fd_to_key.pop(self._fileobj_lookup(fileobj))`, raising
`KeyError` when absent. -/
def base_unregister (s : GAsyncIOSelector) (fo : FileObj) :
    PyResult SelectorKey GAsyncIOSelector :=
  match alookup fo.fd s.fd_to_key with
  | none => .err .keyError s
  | some key => .ok key { s with fd_to_key := adel fo.fd s.fd_to_key }

/-- Embedding of `GAsyncIOSelector.register` (gevents.py lines 58-71): after
`super().register`, raises `KeyError` if `key.fd` already has a watch
source; reuses the existing `GLib.IOChannel` for `key.fd` or creates a
fresh one (set to no encoding, unbuffered, no close-on-unref); then
installs `GLib.io_add_watch(io_channel, PRIORITY_DEFAULT,
self._events_to_io_condition(events) | GLib.IOCondition.HUP,
self._channel_watch_cb, key)` and stores the source id. -/
def GAsyncIOSelector.register (s : GAsyncIOSelector) (fo : FileObj) (events data : Nat) :
    PyResult SelectorKey GAsyncIOSelector :=
  match base_register s fo events data with
  | .err e s1 => .err e s1
  | .ok key s1 =>
    if (alookup key.fd s1.sources).isSome then .err .keyError s1
    else
      let s2 :=
        match alookup key.fd s1.io_channels with
        | some _ => s1
        | none =>
          { s1 with io_channels := aset key.fd s1.next_channel s1.io_channels,
                    next_channel := s1.next_channel + 1 }
      .ok key { s2 with sources := aset key.fd s2.next_source s2.sources,
                        next_source := s2.next_source + 1 }

/-- Embedding of `GAsyncIOSelector.unregister` (gevents.py lines 73-81): after
`super().unregister`, pops the watch source for `key.fd` (a `dict.pop`
that raises `KeyError` when absent) and removes it from GLib; then,
unless `fileobj` is in `self._fileobj_preserve`, looks up and deletes the
channel wrapper for `key.fd` (indexing raises `KeyError` when absent). -/
def GAsyncIOSelector.unregister (s : GAsyncIOSelector) (fo : FileObj) :
    PyResult SelectorKey GAsyncIOSelector :=
  match base_unregister s fo with
  | .err e s1 => .err e s1
  | .ok key s1 =>
    match alookup key.fd s1.sources with
    | none => .err .keyError s1
    | some _src =>
      let s2 := { s1 with sources := adel key.fd s1.sources }
      if fo ∈ s2.fileobj_preserve then .ok key s2
      else
        match alookup key.fd s2.io_channels with
        | none => .err .keyError s2
        | some _ => .ok key { s2 with io_channels := adel key.fd s2.io_channels }

/-- Python `set.add` on `self._fileobj_preserve`. -/
def preserveAdd (fo : FileObj) (l : List FileObj) : List FileObj :=
  if fo ∈ l then l else fo :: l

/-- Python `set.remove` on `self._fileobj_preserve` (within `modify` the
element was just added, so the `KeyError` branch of `set.remove` is
unreachable and elided). -/
def preserveRemove (fo : FileObj) (l : List FileObj) : List FileObj :=
  l.filter (fun x => decide (¬ x = fo))

/-- Embedding of `selectors._BaseSelectorImpl.modify` (cpython), as invoked with the
overridden `self.unregister` / `self.register` of `GAsyncIOSelector`:
look up the key for the descriptor (`KeyError` when absent); if the event
mask changed, `self.unregister(fileobj)` then
`self.register(fileobj, events, data)`; else if only `data` changed,
replace the stored key's data in place. -/
def base_modify_dispatch (s : GAsyncIOSelector) (fo : FileObj) (events data : Nat) :
    PyResult SelectorKey GAsyncIOSelector :=
  match alookup fo.fd s.fd_to_key with
  | none => .err .keyError s
  | some key =>
    if ¬ events = key.events then
      match GAsyncIOSelector.unregister s fo with
      | .err e s1 => .err e s1
      | .ok _ s1 => GAsyncIOSelector.register s1 fo events data
    else if ¬ data = key.data then
      let key1 : SelectorKey := { key with data := data }
      .ok key1 { s with fd_to_key := aset key.fd key1 s.fd_to_key }
    else .ok key s

/-- Embedding of `GAsyncIOSelector.modify` (gevents.py lines 83-87): adds `fileobj` to
`self._fileobj_preserve`, runs `super().modify(fileobj, events, data)`,
and removes `fileobj` from the preserve set — the removal is skipped when
`super().modify` raises, exactly as in the Python control flow. -/
def GAsyncIOSelector.modify (s : GAsyncIOSelector) (fo : FileObj) (events data : Nat) :
    PyResult SelectorKey GAsyncIOSelector :=
  let s0 := { s with fileobj_preserve := preserveAdd fo s.fileobj_preserve }
  match base_modify_dispatch s0 fo events data with
  | .ok k s1 => .ok k { s1 with fileobj_preserve := preserveRemove fo s1.fileobj_preserve }
  | .err e s1 => .err e s1

/-- Python `set.add` on `self._hups`. -/
def hupAdd (key : SelectorKey) (l : List SelectorKey) : List SelectorKey :=
  if key ∈ l then l else key :: l

/-- Embedding of `GAsyncIOSelector._channel_watch_cb` (gevents.py lines 89-97): invoked
by GLib with the fired condition and the registration key; runs the
read/write handles (`key.data`) directly for IN/OUT conditions — reported
here as the `ran_in` / `ran_out` flags, since the handles live outside
this selector — records the key in `self._hups` for HUP, and returns
`True` (keep the watch). -/
def GAsyncIOSelector._channel_watch_cb (s : GAsyncIOSelector) (condition : Nat)
    (key : SelectorKey) : (Bool × Bool × Bool) × GAsyncIOSelector :=
  let ran_in := condition &&& G_IO_IN ≠ 0
  let ran_out := condition &&& G_IO_OUT ≠ 0
  let s1 := if condition &&& G_IO_HUP ≠ 0 then { s with hups := hupAdd key s.hups } else s
  ((true, ran_in, ran_out), s1)

/-- Embedding of `GAsyncIOSelector.select` (gevents.py lines 99-104): the `timeout`
argument is ignored; emits one `(key, key.events & (EVENT_READ |
EVENT_WRITE))` pair per pending hangup and clears `self._hups`. -/
def GAsyncIOSelector.select (s : GAsyncIOSelector) :
    List (SelectorKey × Nat) × GAsyncIOSelector :=
  (s.hups.map (fun key => (key, key.events &&& (EVENT_READ ||| EVENT_WRITE))),
   { s with hups := [] })

/-! ## ThreadSelector model (threadselector.py)

`ThreadSelector` subclasses `selectors.SelectSelector`, whose cpython
`register`/`unregister` extend `_BaseSelectorImpl` by maintaining the
`self._readers` / `self._writers` fd sets. -/

structure ThreadSelector : Type where
  /-- Attribute `self._fd_to_key` of `selectors._BaseSelectorImpl`. -/
  fd_to_key : List (Nat × SelectorKey)
  /-- Attribute `self._readers` of `selectors.SelectSelector` (a Python set of fds). -/
  readers : List Nat
  /-- Attribute `self._writers` of `selectors.SelectSelector`. -/
  writers : List Nat
  /-- whether `self._loop` has been bound (initially `None`). -/
  loop_set : Bool
  /-- whether the background thread exists (`self._thread is not None`). -/
  thread : Bool
  /-- Attribute `self._closed`. -/
  closed : Bool
  /-- number of wake bytes successfully sent on `self._waker_w`. -/
  wakes : Nat
deriving DecidableEq, Repr

/-- Python `set.add` on an fd set. -/
def fdAdd (fd : Nat) (l : List Nat) : List Nat :=
  if fd ∈ l then l else fd :: l

/-- Python `set.discard` on an fd set. -/
def fdDiscard (fd : Nat) (l : List Nat) : List Nat :=
  l.filter (fun x => decide (¬ x = fd))

/-- Embedding of `selectors.SelectSelector.register` (cpython): `super().register`, then
adds `key.fd` to `self._readers` when the mask has `EVENT_READ` and to
`self._writers` when it has `EVENT_WRITE`, and returns the key. -/
def select_base_register (s : ThreadSelector) (fo : FileObj) (events data : Nat) :
    PyResult SelectorKey ThreadSelector :=
  if events = 0 ∨ ¬ events &&& (EVENT_READ ||| EVENT_WRITE) = events then
    .err .valueError s
  else if (alookup fo.fd s.fd_to_key).isSome then .err .keyError s
  else
    let key : SelectorKey := ⟨fo, fo.fd, events, data⟩
    let s1 := { s with fd_to_key := aset fo.fd key s.fd_to_key }
    let s2 := if events &&& EVENT_READ ≠ 0 then { s1 with readers := fdAdd key.fd s1.readers } else s1
    let s3 := if events &&& EVENT_WRITE ≠ 0 then { s2 with writers := fdAdd key.fd s2.writers } else s2
    .ok key s3

/-- Embedding of `selectors.SelectSelector.unregister` (cpython): `super().unregister`,
then discards `key.fd` from both fd sets, and returns the key. -/
def select_base_unregister (s : ThreadSelector) (fo : FileObj) :
    PyResult SelectorKey ThreadSelector :=
  match alookup fo.fd s.fd_to_key with
  | none => .err .keyError s
  | some key =>
    .ok key { s with fd_to_key := adel fo.fd s.fd_to_key,
                     readers := fdDiscard key.fd s.readers,
                     writers := fdDiscard key.fd s.writers }

/-- Embedding of `ThreadSelector._wake_selector` (threadselector.py lines 52-64):
returns silently when `asyncio.get_running_loop()` raises (`running =
false`); binds `self._loop` and creates the background thread and waker
socket pair on first use; then best-effort sends one byte on the waker
(`BlockingIOError` from a full buffer is ignored — embedded as the
successful send, the claims do not depend on the buffer filling). -/
def ThreadSelector._wake_selector (running : Bool) (s : ThreadSelector) : ThreadSelector :=
  if ¬ running then s
  else
    let s1 := if ¬ s.thread then { s with loop_set := true, thread := true } else s
    { s1 with wakes := s1.wakes + 1 }

/-- Embedding of `ThreadSelector.register` (threadselector.py lines 15-17): calls
`super().register(fileobj, events, data)` and `self._wake_selector()`.
The method body has no `return` statement, so the call evaluates to
Python `None` — embedded as the `Option SelectorKey` value `none`. -/
def ThreadSelector.register (running : Bool) (s : ThreadSelector) (fo : FileObj)
    (events data : Nat) : PyResult (Option SelectorKey) ThreadSelector :=
  match select_base_register s fo events data with
  | .err e s1 => .err e s1
  | .ok _key s1 => .ok none (ThreadSelector._wake_selector running s1)

/-- Embedding of `ThreadSelector.unregister` (threadselector.py lines 19-21): binds
`key = super().unregister(fileobj)`, calls `self._wake_selector()`, and
falls off the end of the body — so the bound key is discarded and the
call evaluates to Python `None`, embedded as `none`. -/
def ThreadSelector.unregister (running : Bool) (s : ThreadSelector) (fo : FileObj) :
    PyResult (Option SelectorKey) ThreadSelector :=
  match select_base_unregister s fo with
  | .err e s1 => .err e s1
  | .ok _key s1 => .ok none (ThreadSelector._wake_selector running s1)

/-! ## The `except OSError` handler of `ThreadSelector._run_select`
(threadselector.py lines 80-89)

The module header of threadselector.py imports exactly `socket`, `select`,
`selectors`, `asyncio`, `threading` (lines 1-5). -/

def threadselector_imports : List String :=
  ["socket", "select", "selectors", "asyncio", "threading"]

/-- Whether the name `errno` is bound in the module namespace of
threadselector.py. -/
def errnoInScope : Bool := threadselector_imports.contains "errno"

def EBADF : Int := 9

/-- Outcome of one turn of the `while` loop in `_run_select` after the
blocking `select.select` raised `OSError`. -/
inductive HandlerOutcome : Type
  /-- fall through to the `call_soon_threadsafe` hand-off with these
  ready lists, then loop again. -/
  | continueWith (rs ws : List Nat)
  /-- the exception propagates out of `_run_select`, terminating the
  background thread. -/
  | raised (e : PyErr)
deriving DecidableEq, Repr

/-- The `except OSError as e` handler in `ThreadSelector._run_select`
(threadselector.py lines 80-89), for a non-Windows platform.  The guard
compares `e.errno` with `getattr(errno, "WSAENOTSOCK", errno.EBADF)`;
evaluating it first resolves the name `errno`, which raises `NameError`
when the name is not in the module scope — before any comparison runs.
When the name resolves (`inScope`), the guard reduces to
`e.errno == errno.EBADF` (no `WSAENOTSOCK` attribute off Windows): on a
match, a zero-timeout `select.select` probes the waker read end — if it
is readable the handler sets `ws = []` (leaving `rs` as the probe's
result, i.e. the waker descriptor) and falls through; otherwise it
re-raises; any other errno re-raises.
`eno` is `e.errno`, `wakerFd` is `self._waker_r.fileno()`,
`wakerReadable` the probe's verdict. -/
def runSelect_osError_handler (inScope : Bool) (eno : Int) (wakerFd : Nat)
    (wakerReadable : Bool) : HandlerOutcome :=
  if inScope then
    if eno = EBADF then
      if wakerReadable then .continueWith [wakerFd] []
      else .raised (.osError eno)
    else .raised (.osError eno)
  else .raised .nameError

/-! ## Concrete states used by evaluation and witness theorems -/

def freshLoop : GAsyncIOEventLoop :=
  { is_slave := false, giteration := none, closed := false, running_loop_set := false,
    ready := 0, selector := SelectorKind.gasyncioSelector, glib := ⟨0, []⟩ }

def c2State : GAsyncIOEventLoop :=
  { is_slave := true, giteration := some 5, closed := false, running_loop_set := true,
    ready := 0, selector := SelectorKind.threadSelector,
    glib := ⟨6, [(5, 0, GSrcKind.giterate)]⟩ }

def c2wState : GAsyncIOEventLoop :=
  { is_slave := true, giteration := some 5, closed := false, running_loop_set := true,
    ready := 0, selector := SelectorKind.noWaitSelect,
    glib := ⟨6, [(5, 0, GSrcKind.giterate)]⟩ }

/-! ## Claim C1 -/

/-- C1: the claim states that after a successful `start_slave_loop` a
subsequent `is_running()` query returns `false`.  Evaluating the code on a
fresh loop (not closed, not slave, no running loop installed):
`start_slave_loop` succeeds, but `is_running()` then returns `true`, since
`start_slave_loop` sets `self._is_slave = True` and `is_running` returns
`self._is_slave` — contradicting the claim and the method's own docstring
("self.is_running() will return False"). -/
theorem claim_C1_eval :
    (freshLoop.start_slave_loop).isOk = true ∧
    (freshLoop.start_slave_loop).state.is_running = true :=
  ⟨rfl, rfl⟩

/-! ## Claim C9 -/

/-- C9: for every deadline, `call_at(when, callback)` passes a delay of
`max 0 ((when - now) * 1000)` milliseconds to the host timer primitive
(`GLib.timeout_add`): a deadline at or before the current time is clamped
to exactly zero and a negative delay is never passed. -/
theorem claim_C9 (s : GAsyncIOEventLoop) (now when : ℚ) (h : s.closed = false) :
    call_at_delay when now = max 0 ((when - now) * 1000) ∧
    0 ≤ call_at_delay when now ∧
    s.call_at now when =
      .ok s.glib.next_source
        { s with glib := (timeout_add s.glib (call_at_delay when now) GSrcKind.timer).2 } := by
  refine ⟨?_, ?_, ?_⟩
  · unfold call_at_delay
    rcases le_or_lt 0 ((when - now) * 1000) with hle | hlt
    · rw [if_neg (not_lt.mpr hle), max_eq_right hle]
    · rw [if_pos hlt, max_eq_left (le_of_lt hlt)]
  · unfold call_at_delay
    rcases le_or_lt 0 ((when - now) * 1000) with hle | hlt
    · rwa [if_neg (not_lt.mpr hle)]
    · rw [if_pos hlt]
  · simp [GAsyncIOEventLoop.call_at, h, timeout_add]

/-- Witness for C9 at a deadline strictly in the past (`when = 0`,
`now = 5`): the clamp yields exactly zero. -/
theorem claim_C9_witness :
    freshLoop.closed = false ∧
    (call_at_delay 0 5 = max 0 ((0 - 5) * 1000) ∧
     0 ≤ call_at_delay 0 5 ∧
     freshLoop.call_at 5 0 =
       .ok freshLoop.glib.next_source
         { freshLoop with
           glib := (timeout_add freshLoop.glib (call_at_delay 0 5) GSrcKind.timer).2 }) :=
  ⟨rfl, claim_C9 freshLoop 5 0 rfl⟩

/-! ## Claim C5 -/

theorem schedule_giteration_fixed (s : GAsyncIOEventLoop) (x : Nat)
    (h : s.giteration = some x) : s._schedule_giteration = s := by
  simp [GAsyncIOEventLoop._schedule_giteration, h]

theorem schedule_giteration_iterate_fixed (M : Nat) (s : GAsyncIOEventLoop) (x : Nat)
    (h : s.giteration = some x) :
    GAsyncIOEventLoop._schedule_giteration^[M] s = s := by
  induction M with
  | zero => rfl
  | succ M ih => rw [Function.iterate_succ_apply, schedule_giteration_fixed s x h, ih]

/-- C5: for every `N ≥ 1`, calling `_schedule_giteration` `N` times before
the host loop runs any scheduled callback results in exactly one drain
source being scheduled (and `self._giteration` holds its id); the
check-then-schedule sequence is the atomic step the state mutex makes of
the Python body, which is how the embedding renders it. -/
theorem claim_C5 (s : GAsyncIOEventLoop) (N : Nat) (h0 : s.giteration = none)
    (h1 : drainCount s.glib = 0) (hN : 1 ≤ N) :
    drainCount (GAsyncIOEventLoop._schedule_giteration^[N] s).glib = 1 ∧
    (GAsyncIOEventLoop._schedule_giteration^[N] s).giteration = some s.glib.next_source := by
  obtain ⟨M, rfl⟩ : ∃ M, N = M + 1 := ⟨N - 1, (Nat.succ_pred_eq_of_pos hN).symm⟩
  rw [Function.iterate_succ_apply]
  have hstep : s._schedule_giteration =
      { s with giteration := some s.glib.next_source,
               glib := (timeout_add s.glib 0 GSrcKind.giterate).2 } := by
    simp [GAsyncIOEventLoop._schedule_giteration, h0, timeout_add]
  rw [hstep, schedule_giteration_iterate_fixed M _ s.glib.next_source rfl]
  refine ⟨?_, rfl⟩
  simp [drainCount, timeout_add, List.filter_append] at h1 ⊢
  exact h1

/-- Witness for C5: three calls on a fresh loop schedule exactly one drain
source. -/
theorem claim_C5_witness :
    freshLoop.giteration = none ∧ drainCount freshLoop.glib = 0 ∧ 1 ≤ 3 ∧
    (drainCount (GAsyncIOEventLoop._schedule_giteration^[3] freshLoop).glib = 1 ∧
     (GAsyncIOEventLoop._schedule_giteration^[3] freshLoop).giteration =
       some freshLoop.glib.next_source) :=
  ⟨rfl, rfl, by decide, claim_C5 freshLoop 3 rfl rfl (by decide)⟩

/-! ## Claim C2 -/

/-- C2 counterexample: the claim states that when `_giterate` finishes with
the ready queue empty and the active selector is `ThreadSelector`, it
re-arms itself on a 10 ms period instead of clearing the pending-drain id.
On a concrete loop state with the thread selector active and the ready
queue empty, the drain callback clears `self._giteration` to `None` and
schedules nothing: `ThreadSelector` does not define
`_schedule_periodic_giterate`, so `getattr` yields `False`. -/
theorem claim_C2_counterexample :
    (c2State._giterate_post).1 = false ∧
    (c2State._giterate_post).2.giteration = none ∧
    (c2State._giterate_post).2.glib = c2State.glib :=
  ⟨rfl, rfl, rfl⟩

/-- C2 (amended): when the drain callback finishes a dispatch step with the
ready queue empty, it re-arms itself on a fixed 10 ms period exactly when
the active selector's `_schedule_periodic_giterate` attribute is true —
which holds for `NoWaitSelectSelector` (the win32 no-wait selector), not
for `ThreadSelector`; with `ThreadSelector` (as with `GAsyncIOSelector`)
it clears the pending-drain id and goes fully idle. -/
theorem claim_C2_amended (s : GAsyncIOEventLoop) (h : s.ready = 0) :
    (s.selector = SelectorKind.threadSelector →
      s._giterate_post = (false, { s with giteration := none })) ∧
    (s.selector = SelectorKind.noWaitSelect →
      s._giterate_post =
        (false, { s with giteration := some s.glib.next_source,
                         glib := (timeout_add s.glib 10 GSrcKind.giterate).2 })) := by
  constructor <;> intro hs <;>
    simp [GAsyncIOEventLoop._giterate_post, h, hs, schedulePeriodicGiterate, timeout_add]

/-- Witness for the amended C2 on a concrete state with the no-wait
selector active and the ready queue empty. -/
theorem claim_C2_amended_witness :
    c2wState.ready = 0 ∧
    ((c2wState.selector = SelectorKind.threadSelector →
       c2wState._giterate_post = (false, { c2wState with giteration := none })) ∧
     (c2wState.selector = SelectorKind.noWaitSelect →
       c2wState._giterate_post =
         (false, { c2wState with
                   giteration := some c2wState.glib.next_source,
                   glib := (timeout_add c2wState.glib 10 GSrcKind.giterate).2 }))) :=
  ⟨rfl, claim_C2_amended c2wState rfl⟩

/-! ## Claim C3 -/

def freshTS : ThreadSelector :=
  { fd_to_key := [], readers := [], writers := [], loop_set := false,
    thread := false, closed := false, wakes := 0 }

def tfo : FileObj := ⟨0, 3⟩

/-- C3: the claim states that `ThreadSelector.register` returns the new
`SelectorKey` and `ThreadSelector.unregister` returns the key that was
registered.  Evaluating the code: both methods succeed but evaluate to
Python `None` (`some none` below: the call returned, and its value is
`None`) because their bodies have no `return` statement — `unregister`
even binds `key = super().unregister(fileobj)` and then discards it —
while the inherited `selectors.SelectSelector.register` does produce the
key, as the second conjunct shows. -/
theorem claim_C3_eval :
    (ThreadSelector.register true freshTS tfo EVENT_READ 0).val? = some none ∧
    (select_base_register freshTS tfo EVENT_READ 0).val? = some ⟨tfo, 3, EVENT_READ, 0⟩ ∧
    (ThreadSelector.unregister true
      (ThreadSelector.register true freshTS tfo EVENT_READ 0).state tfo).val? = some none :=
  ⟨rfl, rfl, by decide⟩

/-! ## Claim C4 -/

/-- C4: the claim states that in `_run_select` an `OSError` whose errno
marks a descriptor that is not a multiplexable handle (`EBADF` off
Windows) is treated as a spurious wake-up while other `OSError`s
propagate and terminate the thread.  Evaluating the code: the module
never binds the name `errno` (first conjunct), so evaluating the guard of
the handler raises `NameError` for every `OSError`, including `EBADF`
with the waker readable (second conjunct) — the spurious-wake-up path is
unreachable.  The third conjunct shows the handler logic would take that
path if the name resolved, confirming the claim describes the intent the
absent errno binding defeats. -/
theorem claim_C4_eval :
    errnoInScope = false ∧
    runSelect_osError_handler errnoInScope EBADF 7 true = .raised .nameError ∧
    runSelect_osError_handler true EBADF 7 true = .continueWith [7] [] :=
  ⟨by decide, by decide, by decide⟩

/-! ## Claim C6 -/

theorem hup_filter_not_mem (l : List SelectorKey) (k : SelectorKey) (hk : k ∉ l) :
    (l.map (fun key => (key, key.events &&& (EVENT_READ ||| EVENT_WRITE)))).filter
      (fun p => decide (p.1 = k)) = [] := by
  induction l with
  | nil => rfl
  | cons a l ih =>
    simp only [List.mem_cons, not_or] at hk
    have hna : ¬ a = k := fun h => hk.1 h.symm
    simp [List.filter, hna, ih hk.2]

theorem hup_filter_mem (l : List SelectorKey) (k : SelectorKey) (hnd : l.Nodup)
    (hk : k ∈ l) :
    (l.map (fun key => (key, key.events &&& (EVENT_READ ||| EVENT_WRITE)))).filter
      (fun p => decide (p.1 = k)) = [(k, k.events &&& (EVENT_READ ||| EVENT_WRITE))] := by
  induction l with
  | nil => cases hk
  | cons a l ih =>
    rcases List.mem_cons.mp hk with rfl | hmem
    · have hnk : k ∉ l := (List.nodup_cons.mp hnd).1
      simp [List.filter, hup_filter_not_mem l k hnk]
    · have hna : ¬ a = k := by
        rintro rfl
        exact (List.nodup_cons.mp hnd).1 hmem
      simp [List.filter, hna, ih (List.nodup_cons.mp hnd).2 hmem]

/-- C6: for every key in the pending hangup set, `GAsyncIOSelector.select`
returns exactly one pair `(key, mask)` with `mask` the originally
requested event mask intersected with read|write; in particular a hangup
on a key registered with mask `EVENT_READ` surfaces as `(key,
EVENT_READ)` and never includes `EVENT_WRITE`; and `select` clears the
hangup set, so a second `select` surfaces nothing.  (`self._hups` is a
Python set, hence the `Nodup` hypothesis on its embedding.) -/
theorem claim_C6 (s : GAsyncIOSelector) (key : SelectorKey)
    (hnd : s.hups.Nodup) (hk : key ∈ s.hups) :
    s.select.1.filter (fun p => decide (p.1 = key)) =
      [(key, key.events &&& (EVENT_READ ||| EVENT_WRITE))] ∧
    (key.events = EVENT_READ →
      s.select.1.filter (fun p => decide (p.1 = key)) = [(key, EVENT_READ)]) ∧
    s.select.2.hups = [] ∧
    (s.select.2).select.1 = [] := by
  have h1 := hup_filter_mem s.hups key hnd hk
  refine ⟨h1, ?_, rfl, rfl⟩
  intro he
  rw [he] at h1
  exact h1

def k6 : SelectorKey := ⟨⟨1, 4⟩, 4, EVENT_READ, 0⟩

def s6 : GAsyncIOSelector :=
  { fd_to_key := [(4, k6)], sources := [(4, 0)], io_channels := [(4, 0)],
    fileobj_preserve := [], hups := [k6], next_source := 1, next_channel := 1 }

/-- Witness for C6 on a selector with one pending hangup for a key whose
requested mask is `EVENT_READ`. -/
theorem claim_C6_witness :
    s6.hups.Nodup ∧ k6 ∈ s6.hups ∧
    (s6.select.1.filter (fun p => decide (p.1 = k6)) =
       [(k6, k6.events &&& (EVENT_READ ||| EVENT_WRITE))] ∧
     (k6.events = EVENT_READ →
       s6.select.1.filter (fun p => decide (p.1 = k6)) = [(k6, EVENT_READ)]) ∧
     s6.select.2.hups = [] ∧
     (s6.select.2).select.1 = []) :=
  ⟨by decide, by decide, claim_C6 s6 k6 (by decide) (by decide)⟩

/-! ## Characterisation lemmas for `GAsyncIOSelector.register` -/

theorem base_register_ok (s s1 : GAsyncIOSelector) (fo : FileObj) (ev d : Nat)
    (k : SelectorKey) (h : base_register s fo ev d = .ok k s1) :
    k = ⟨fo, fo.fd, ev, d⟩ ∧ alookup fo.fd s.fd_to_key = none ∧
    s1 = { s with fd_to_key := aset fo.fd ⟨fo, fo.fd, ev, d⟩ s.fd_to_key } := by
  unfold base_register at h
  by_cases h1 : ev = 0 ∨ ¬ ev &&& (EVENT_READ ||| EVENT_WRITE) = ev
  · rw [if_pos h1] at h
    cases h
  · rw [if_neg h1] at h
    by_cases h2 : (alookup fo.fd s.fd_to_key).isSome
    · rw [if_pos h2] at h
      cases h
    · rw [if_neg h2] at h
      cases h
      exact ⟨rfl, Option.not_isSome_iff_eq_none.mp h2, rfl⟩

theorem base_register_err (s s1 : GAsyncIOSelector) (fo : FileObj) (ev d : Nat)
    (e : PyErr) (h : base_register s fo ev d = .err e s1) : s1 = s := by
  unfold base_register at h
  by_cases h1 : ev = 0 ∨ ¬ ev &&& (EVENT_READ ||| EVENT_WRITE) = ev
  · rw [if_pos h1] at h
    cases h
    rfl
  · rw [if_neg h1] at h
    by_cases h2 : (alookup fo.fd s.fd_to_key).isSome
    · rw [if_pos h2] at h
      cases h
      rfl
    · rw [if_neg h2] at h
      cases h

theorem register_when_registered (s : GAsyncIOSelector) (fo : FileObj) (ev d : Nat)
    (hev : ¬ (ev = 0 ∨ ¬ ev &&& (EVENT_READ ||| EVENT_WRITE) = ev))
    (hreg : (alookup fo.fd s.fd_to_key).isSome) :
    s.register fo ev d = .err .keyError s := by
  unfold GAsyncIOSelector.register base_register
  rw [if_neg hev, if_pos hreg]

theorem register_ok_fd_to_key (s s1 : GAsyncIOSelector) (fo : FileObj) (ev d : Nat)
    (k : SelectorKey) (h : s.register fo ev d = .ok k s1) :
    alookup fo.fd s1.fd_to_key = some k := by
  unfold GAsyncIOSelector.register at h
  split at h
  next e s2 heq => cases h
  next key s2 heq =>
    obtain ⟨hkey, _hnone, hs2⟩ := base_register_ok s s2 fo ev d key heq
    split at h
    next hsrc => cases h
    next hsrc =>
      cases hch : alookup key.fd s2.io_channels with
      | some ch =>
        simp only [hch] at h
        cases h
        subst hkey
        rw [hs2]
        exact alookup_aset_self fo.fd _ s.fd_to_key
      | none =>
        simp only [hch] at h
        cases h
        subst hkey
        rw [hs2]
        exact alookup_aset_self fo.fd _ s.fd_to_key

/-! ## Claim C8 -/

/-- C8: for any descriptor registered once with `GAsyncIOSelector.register`
and never unregistered, a second `register` call for the same descriptor
(with a well-formed event mask, so that the base class's `ValueError`
check does not fire first) raises `KeyError` and installs no second
watch: the selector state is left exactly as it was. -/
theorem claim_C8 (s s1 : GAsyncIOSelector) (fo : FileObj) (ev d ev2 d2 : Nat)
    (k : SelectorKey) (h : s.register fo ev d = .ok k s1)
    (hev2 : ¬ ev2 = 0) (hmask : ev2 &&& (EVENT_READ ||| EVENT_WRITE) = ev2) :
    s1.register fo ev2 d2 = .err .keyError s1 := by
  have hmem : (alookup fo.fd s1.fd_to_key).isSome := by
    rw [register_ok_fd_to_key s s1 fo ev d k h]
    rfl
  refine register_when_registered s1 fo ev2 d2 ?_ hmem
  rintro (h0 | hm)
  · exact hev2 h0
  · exact hm hmask

def s8 : GAsyncIOSelector :=
  { fd_to_key := [], sources := [], io_channels := [], fileobj_preserve := [],
    hups := [], next_source := 0, next_channel := 0 }

def k8 : SelectorKey := ⟨⟨0, 4⟩, 4, EVENT_READ, 0⟩

def s81 : GAsyncIOSelector :=
  { fd_to_key := [(4, k8)], sources := [(4, 0)], io_channels := [(4, 0)],
    fileobj_preserve := [], hups := [], next_source := 1, next_channel := 1 }

/-- Witness for C8: register fd 4 on an empty selector, then register it
again with another mask — `KeyError`, state untouched. -/
theorem claim_C8_witness :
    s8.register ⟨0, 4⟩ EVENT_READ 0 = .ok k8 s81 ∧
    ¬ EVENT_WRITE = 0 ∧ EVENT_WRITE &&& (EVENT_READ ||| EVENT_WRITE) = EVENT_WRITE ∧
    s81.register ⟨0, 4⟩ EVENT_WRITE 0 = .err .keyError s81 :=
  ⟨by decide, by decide, by decide,
   claim_C8 s8 s81 ⟨0, 4⟩ EVENT_READ 0 EVENT_WRITE 0 k8 (by decide) (by decide) (by decide)⟩

/-! ## Claim C10 -/

/-- Reachability invariant of `GAsyncIOSelector`: every descriptor with a
watch source is also in the base class's key map (`register` is the only
writer of `self._sources` and records the fd in both maps; `unregister`
removes it from both). -/
def sourcesCovered (s : GAsyncIOSelector) : Bool :=
  s.sources.all (fun p => (alookup p.1 s.fd_to_key).isSome)

theorem alookup_isSome_exists {α : Type u} (k : Nat) (l : List (Nat × α))
    (h : (alookup k l).isSome = true) : ∃ p ∈ l, p.1 = k := by
  induction l with
  | nil => simp [alookup] at h
  | cons p l ih =>
    by_cases hp : p.1 = k
    · exact ⟨p, List.mem_cons_self p l, hp⟩
    · simp only [alookup, if_neg hp] at h
      obtain ⟨q, hq, hqk⟩ := ih h
      exact ⟨q, List.mem_cons_of_mem p hq, hqk⟩

/-- C10: every `GAsyncIOSelector.register` call that raises the
duplicate-registration `KeyError` is atomic — it leaves the whole
selector state (in particular the key map, the source map and the channel
map) exactly as it was.  The hypothesis is the reachability invariant
that every watched fd is in the key map; under it the duplicate error can
only come from the base class's check, which fires before any mutation
(the subclass's own `KeyError` branch at gevents.py line 60-61, which
would fire after `super().register` has already stored the key, is
unreachable). -/
theorem claim_C10 (s s1 : GAsyncIOSelector) (fo : FileObj) (ev d : Nat)
    (hcov : sourcesCovered s = true)
    (h : s.register fo ev d = .err .keyError s1) : s1 = s := by
  unfold GAsyncIOSelector.register at h
  split at h
  next e s2 heq =>
    injection h with he hs
    rw [← hs]
    exact base_register_err s s2 fo ev d e heq
  next key s2 heq =>
    obtain ⟨hkey, hnone, hs2⟩ := base_register_ok s s2 fo ev d key heq
    split at h
    next hsrc =>
      exfalso
      have hsrc2 : (alookup fo.fd s.sources).isSome = true := by
        subst hkey
        rw [hs2] at hsrc
        exact hsrc
      obtain ⟨p, hp, hpk⟩ := alookup_isSome_exists fo.fd s.sources hsrc2
      have hcv := List.all_eq_true.mp (by exact hcov) p hp
      rw [hpk, hnone] at hcv
      cases hcv
    next hsrc =>
      cases hch : alookup key.fd s2.io_channels with
      | some ch =>
        simp only [hch] at h
        cases h
      | none =>
        simp only [hch] at h
        cases h

def fo10 : FileObj := ⟨9, 4⟩

/-- Witness for C10: registering a second file object (`fo10`, oid 9)
whose fd 4 equals that of the already-registered `k8.fileobj` raises the
duplicate `KeyError` and leaves the state `s81` untouched. -/
theorem claim_C10_witness :
    sourcesCovered s81 = true ∧
    s81.register fo10 EVENT_READ 7 = .err .keyError s81 ∧ s81 = s81 :=
  ⟨by decide, by decide, claim_C10 s81 s81 fo10 EVENT_READ 7 (by decide) (by decide)⟩

/-! ## Claim C7 -/

theorem mem_preserveAdd (fo : FileObj) (l : List FileObj) : fo ∈ preserveAdd fo l := by
  unfold preserveAdd
  by_cases h : fo ∈ l
  · rwa [if_pos h]
  · rw [if_neg h]
    exact List.mem_cons_self fo l

/-- Running `unregister` on a descriptor currently marked "preserve" removes the
key and the watch source but keeps the channel wrapper. -/
theorem unregister_preserve_spec (s : GAsyncIOSelector) (fo : FileObj) (key : SelectorKey)
    (src : Nat) (hreg : alookup fo.fd s.fd_to_key = some key) (hkfd : key.fd = fo.fd)
    (hsrc : alookup fo.fd s.sources = some src) (hpres : fo ∈ s.fileobj_preserve) :
    s.unregister fo = .ok key
      { s with fd_to_key := adel fo.fd s.fd_to_key, sources := adel fo.fd s.sources } := by
  unfold GAsyncIOSelector.unregister base_unregister
  rw [hreg]
  dsimp only
  rw [hkfd, hsrc]
  dsimp only
  rw [if_pos hpres]

/-- Running `unregister` on a descriptor not marked "preserve" also deletes the
channel wrapper. -/
theorem unregister_destroy_spec (s : GAsyncIOSelector) (fo : FileObj) (key : SelectorKey)
    (src ch : Nat) (hreg : alookup fo.fd s.fd_to_key = some key) (hkfd : key.fd = fo.fd)
    (hsrc : alookup fo.fd s.sources = some src)
    (hch : alookup fo.fd s.io_channels = some ch)
    (hpres : fo ∉ s.fileobj_preserve) :
    s.unregister fo = .ok key
      { s with fd_to_key := adel fo.fd s.fd_to_key, sources := adel fo.fd s.sources,
               io_channels := adel fo.fd s.io_channels } := by
  unfold GAsyncIOSelector.unregister base_unregister
  rw [hreg]
  dsimp only
  rw [hkfd, hsrc]
  dsimp only
  rw [if_neg hpres, hch]

/-- Running `register` on a descriptor whose channel wrapper already exists reuses
it: no channel is created and the channel map is untouched. -/
theorem register_reuse_spec (s : GAsyncIOSelector) (fo : FileObj) (ev d ch : Nat)
    (hev0 : ¬ ev = 0) (hmask : ev &&& (EVENT_READ ||| EVENT_WRITE) = ev)
    (hfk : alookup fo.fd s.fd_to_key = none)
    (hsrc : alookup fo.fd s.sources = none)
    (hch : alookup fo.fd s.io_channels = some ch) :
    s.register fo ev d = .ok ⟨fo, fo.fd, ev, d⟩
      { s with fd_to_key := aset fo.fd ⟨fo, fo.fd, ev, d⟩ s.fd_to_key,
               sources := aset fo.fd s.next_source s.sources,
               next_source := s.next_source + 1 } := by
  have hval : ¬ (ev = 0 ∨ ¬ ev &&& (EVENT_READ ||| EVENT_WRITE) = ev) := by
    rintro (h0 | hm)
    · exact hev0 h0
    · exact hm hmask
  unfold GAsyncIOSelector.register base_register
  rw [if_neg hval, hfk]
  simp [hsrc, hch]

/-- Running `super().modify` with the overridden methods, on a state where the
descriptor is registered, watched, channel-backed and marked "preserve":
it succeeds and the channel map and wrapper-creation counter are
untouched whatever the mask/data change. -/
theorem base_modify_dispatch_channels (s : GAsyncIOSelector) (fo : FileObj)
    (key : SelectorKey) (src ch ev d : Nat)
    (hreg : alookup fo.fd s.fd_to_key = some key) (hkfd : key.fd = fo.fd)
    (hsrc : alookup fo.fd s.sources = some src)
    (hch : alookup fo.fd s.io_channels = some ch)
    (hev0 : ¬ ev = 0) (hmask : ev &&& (EVENT_READ ||| EVENT_WRITE) = ev)
    (hpres : fo ∈ s.fileobj_preserve) :
    ∃ k1 s1, base_modify_dispatch s fo ev d = .ok k1 s1 ∧
      s1.io_channels = s.io_channels ∧ s1.next_channel = s.next_channel := by
  unfold base_modify_dispatch
  rw [hreg]
  dsimp only
  by_cases hevk : ev = key.events
  · rw [if_neg (fun hc => hc hevk)]
    by_cases hd : d = key.data
    · rw [if_neg (fun hc => hc hd)]
      exact ⟨key, s, rfl, rfl, rfl⟩
    · rw [if_pos hd]
      exact ⟨_, _, rfl, rfl, rfl⟩
  · rw [if_pos hevk]
    rw [unregister_preserve_spec s fo key src hreg hkfd hsrc hpres]
    dsimp only
    rw [register_reuse_spec
      { s with fd_to_key := adel fo.fd s.fd_to_key, sources := adel fo.fd s.sources }
      fo ev d ch hev0 hmask (alookup_adel_self fo.fd s.fd_to_key)
      (alookup_adel_self fo.fd s.sources) hch]
    exact ⟨_, _, rfl, rfl, rfl⟩

/-- C7: for a registered descriptor (with its watch source and channel
wrapper present, and a well-formed new mask), `GAsyncIOSelector.modify`
succeeds and leaves the channel map and the wrapper-creation counter
exactly as they were — the same wrapper object is present before and
after, with no wrapper destroyed or created during the internal
unregister+register — while a plain `unregister` (descriptor not marked
"preserve") does destroy the wrapper, removing it from the channel
map. -/
theorem claim_C7 (s : GAsyncIOSelector) (fo : FileObj) (key : SelectorKey)
    (src ch ev d : Nat)
    (hreg : alookup fo.fd s.fd_to_key = some key) (hkfd : key.fd = fo.fd)
    (hsrc : alookup fo.fd s.sources = some src)
    (hch : alookup fo.fd s.io_channels = some ch)
    (hev0 : ¬ ev = 0) (hmask : ev &&& (EVENT_READ ||| EVENT_WRITE) = ev)
    (hpres : fo ∉ s.fileobj_preserve) :
    ((s.modify fo ev d).isOk = true ∧
     (s.modify fo ev d).state.io_channels = s.io_channels ∧
     (s.modify fo ev d).state.next_channel = s.next_channel) ∧
    ((s.unregister fo).isOk = true ∧
     alookup fo.fd (s.unregister fo).state.io_channels = none) := by
  constructor
  · unfold GAsyncIOSelector.modify
    obtain ⟨k1, s1, hd, hio, hnc⟩ :=
      base_modify_dispatch_channels
        { s with fileobj_preserve := preserveAdd fo s.fileobj_preserve }
        fo key src ch ev d hreg hkfd hsrc hch hev0 hmask
        (mem_preserveAdd fo s.fileobj_preserve)
    dsimp only
    rw [hd]
    exact ⟨rfl, hio, hnc⟩
  · rw [unregister_destroy_spec s fo key src ch hreg hkfd hsrc hch hpres]
    exact ⟨rfl, alookup_adel_self fo.fd s.io_channels⟩

def k7 : SelectorKey := ⟨⟨0, 4⟩, 4, EVENT_READ, 0⟩

def s7 : GAsyncIOSelector :=
  { fd_to_key := [(4, k7)], sources := [(4, 5)], io_channels := [(4, 8)],
    fileobj_preserve := [], hups := [], next_source := 6, next_channel := 9 }

/-- Witness for C7: change the interest mask of the registered fd 4 from
read to write; the channel map and the wrapper counter are untouched,
while a plain `unregister` deletes the wrapper. -/
theorem claim_C7_witness :
    alookup 4 s7.fd_to_key = some k7 ∧ k7.fd = 4 ∧
    alookup 4 s7.sources = some 5 ∧ alookup 4 s7.io_channels = some 8 ∧
    ¬ EVENT_WRITE = 0 ∧ EVENT_WRITE &&& (EVENT_READ ||| EVENT_WRITE) = EVENT_WRITE ∧
    (⟨0, 4⟩ : FileObj) ∉ s7.fileobj_preserve ∧
    (((s7.modify ⟨0, 4⟩ EVENT_WRITE 1).isOk = true ∧
      (s7.modify ⟨0, 4⟩ EVENT_WRITE 1).state.io_channels = s7.io_channels ∧
      (s7.modify ⟨0, 4⟩ EVENT_WRITE 1).state.next_channel = s7.next_channel) ∧
     ((s7.unregister ⟨0, 4⟩).isOk = true ∧
      alookup 4 (s7.unregister ⟨0, 4⟩).state.io_channels = none)) :=
  ⟨by decide, by decide, by decide, by decide, by decide, by decide, by decide,
   claim_C7 s7 ⟨0, 4⟩ k7 5 8 EVENT_WRITE 1 (by decide) (by decide) (by decide)
     (by decide) (by decide) (by decide) (by decide)⟩
